import Mathlib

/-!
Verification of the `use-media-stream` React hook.

The repository ships two near-duplicate implementations of the hook:
the documented primary one (modelled below in namespace `Hook`) and an
older variant (namespace `HookB`).  Both are embedded as pure state
transformers: React `useState`/`useRef` cells become fields of a state
structure, the asynchronous host API (`navigator.mediaDevices`) is an
oracle argument giving the outcome of each host call, and each hook
operation maps a pre-state to a post-state plus its returned value.

Ghost instrumentation (comment-marked fields `gsWrites`, `gmdWrites`,
`gumArgs`, `stoppedTrackIds`) records the observable sequence of
request-state writes, the constraints of each `getUserMedia` call, and
the tracks on which `track.stop()` was invoked; no hook logic reads
these fields.
-/

/-- The four request states of `src/constants.ts` (`REQUEST_STATES`). -/
inductive RequestState
  | IDLE
  | PENDING
  | FULFILLED
  | REJECTED
deriving DecidableEq, Repr

/-- Checks a sequence of writes to a request-state cell: starting from
`cur`, a write of `FULFILLED` or `REJECTED` is legal only while the cell
currently holds `PENDING`. -/
def noSkipAux : RequestState → List RequestState → Bool
  | _, [] => true
  | cur, w :: ws =>
    if (w == RequestState.FULFILLED || w == RequestState.REJECTED)
        && !(cur == RequestState.PENDING) then false
    else noSkipAux w ws

/-- The writes an operation appended to a request-state log never settle
(to `FULFILLED`/`REJECTED`) without the cell being `PENDING` first. -/
def RequestWritesOk (init : RequestState) (old new : List RequestState) : Prop :=
  ∃ ws, new = old ++ ws ∧ noSkipAux init ws = true

/-- JSON-like values: the shape of `MediaStreamConstraints` objects. -/
inductive JVal
  | null
  | bool (b : Bool)
  | num (n : Int)
  | str (s : String)
  | obj (fields : List (String × JVal))
deriving Repr

/-- First-match association-list lookup, the lookup semantics of a plain
JS object field access. -/
def lookupKey : List (String × JVal) → String → Option JVal
  | [], _ => none
  | (k, v) :: rest, key => if k = key then some v else lookupKey rest key

/-- `key in target` on a plain object. -/
def containsKey (fs : List (String × JVal)) (key : String) : Bool :=
  (lookupKey fs key).isSome

/-- `isMergeableObject` of the `deepmerge` library restricted to the
array-free values used by the hook: plain objects are mergeable. -/
def isObjB : JVal → Bool
  | .obj _ => true
  | _ => false

/-- The own enumerable fields of a value (a non-object has none). -/
def jfields : JVal → List (String × JVal)
  | .obj fs => fs
  | _ => []

mutual
/-- Model of `merge` from the `deepmerge` npm dependency (default
options; the hook passes only array-free constraint objects).  For an
object source, the destination keeps every target field whose key the
source lacks, and processes each source field in order: when the key is
on the target and the source value is mergeable, the two values are
merged recursively, otherwise the source value replaces whatever the
target had.  A non-object source replaces the target wholesale. -/
def mergeJ : JVal → JVal → JVal
  | t, .obj sfs =>
    .obj ((jfields t).filter (fun kv => !(containsKey sfs kv.1))
      ++ overrideFields (jfields t) sfs)
  | _, s => s
termination_by _ s => sizeOf s

/-- The source-field loop of `deepmerge`: mirrors
`getKeys(source).forEach` in `mergeObject`. -/
def overrideFields : List (String × JVal) → List (String × JVal) → List (String × JVal)
  | _, [] => []
  | tfs, (k, sv) :: rest =>
    (k, if containsKey tfs k && isObjB sv
        then mergeJ ((lookupKey tfs k).getD JVal.null) sv
        else sv)
      :: overrideFields tfs rest
termination_by _ sfs => sizeOf sfs
end

/-- Follow a path of keys through nested objects. -/
def getPath : JVal → List String → Option JVal
  | v, [] => some v
  | .obj fs, k :: rest =>
    match lookupKey fs k with
    | some v => getPath v rest
    | none => none
  | _, _ :: _ => none

/-- A value is a leaf when it is not an object. -/
def isLeafB : JVal → Bool
  | .obj _ => false
  | _ => true

/-- The override leaves the path alone: walking the path through the
override meets only objects until one of them lacks the next key. -/
def missesPath : JVal → List String → Bool
  | _, [] => false
  | .obj fs, k :: rest =>
    match lookupKey fs k with
    | some v => missesPath v rest
    | none => true
  | _, _ :: _ => false

/-- One media channel of a handle: its `enabled` flag plus an identity
used to talk about which tracks had `stop()` invoked on them. -/
structure MediaStreamTrack where
  id : Nat
  enabled : Bool
deriving DecidableEq, Repr

/-- A `MediaStream` handle returned by `getUserMedia`. -/
structure MediaStream where
  id : Nat
  audioTracks : List MediaStreamTrack
  videoTracks : List MediaStreamTrack
deriving DecidableEq, Repr

def MediaStream.getAudioTracks (s : MediaStream) : List MediaStreamTrack :=
  s.audioTracks

def MediaStream.getVideoTracks (s : MediaStream) : List MediaStreamTrack :=
  s.videoTracks

def MediaStream.getTracks (s : MediaStream) : List MediaStreamTrack :=
  s.audioTracks ++ s.videoTracks

/-- `stream.getAudioTracks().forEach((t) => (t.enabled = b))`. -/
def MediaStream.setAudioEnabled (s : MediaStream) (b : Bool) : MediaStream :=
  { s with audioTracks := s.audioTracks.map fun t => { t with enabled := b } }

/-- `stream.getVideoTracks().forEach((t) => (t.enabled = b))`. -/
def MediaStream.setVideoEnabled (s : MediaStream) (b : Bool) : MediaStream :=
  { s with videoTracks := s.videoTracks.map fun t => { t with enabled := b } }

/-- An entry of `navigator.mediaDevices.enumerateDevices()`. -/
structure MediaDeviceInfo where
  deviceId : String
  kind : String
  label : String
deriving DecidableEq, Repr

/-- A host error value; `name` drives the known-category matching of the
older variant, `errorMessage` is the annotation it adds. -/
structure Err where
  name : String
  message : String
  errorMessage : Option String := none
deriving DecidableEq, Repr

/-- Outcome of one host `navigator.mediaDevices.getUserMedia` call. -/
inductive GumResult
  | ok (s : MediaStream)
  | err (e : Err)
deriving DecidableEq, Repr

/-- Outcome of one host `navigator.mediaDevices.enumerateDevices` call. -/
inductive EnumResult
  | ok (ds : List MediaDeviceInfo)
  | err (e : Err)
deriving DecidableEq, Repr

/-- `defaultMediaDeviceConstraints` of the hook source. -/
def defaultMediaDeviceConstraints : JVal :=
  JVal.obj
    [("audio", JVal.obj [("deviceId", JVal.str "")]),
     ("video", JVal.obj
        [("facingMode", JVal.str "user"),
         ("width", JVal.num 1280),
         ("height", JVal.num 720),
         ("frameRate", JVal.obj [("ideal", JVal.num 60), ("min", JVal.num 10)]),
         ("deviceId", JVal.str "")])]

/-- `new Error(...)` raised by the primary `getMediaDevices` when the
capture API is unsupported. -/
def browserNotSupportedError : Err :=
  { name := "Error", message := "getUserMedia is not supported in this browser" }

/-- The keys of `GET_USER_MEDIA_ERRORS` in the older variant. -/
def GUM_ERROR_NAMES : List String :=
  ["NotAllowedError", "NotFoundError", "NotReadableError", "OverconstrainedError"]

/-- `if (e.name in GET_USER_MEDIA_ERRORS) e.errorMessage = GET_USER_MEDIA_ERROR_MESSAGES[e.name]`
of the older variant.  The human-readable message texts decide no
property here, so the model records the matched category name instead of
the prose of `GET_USER_MEDIA_ERROR_MESSAGES`. -/
def annotateGumError (e : Err) : Err :=
  if e.name ∈ GUM_ERROR_NAMES then { e with errorMessage := some e.name } else e

namespace Hook

/-- The reactive cells of the primary hook implementation.  The last
four fields are ghost instrumentation: logs of the writes to the two
request-state cells, of the constraints of each `getUserMedia` call, and
of the track ids on which `track.stop()` was invoked. -/
structure HookState where
  isSupported : Bool
  mediaDeviceConstraints : JVal
  getStreamRequest : RequestState
  getMediaDevicesRequest : RequestState
  isStreaming : Bool
  error : Option Err
  devices : List MediaDeviceInfo
  isAudioMuted : Bool
  isVideoMuted : Bool
  stream : Option MediaStream
  gsWrites : List RequestState
  gmdWrites : List RequestState
  gumArgs : List JVal
  stoppedTrackIds : List Nat
deriving Repr

/-- `setGetStreamRequest(r)`, with the ghost write log. -/
def setGetStreamRequest (st : HookState) (r : RequestState) : HookState :=
  { st with getStreamRequest := r, gsWrites := st.gsWrites ++ [r] }

/-- `setGetMediaDevicesRequest(r)`, with the ghost write log. -/
def setGetMediaDevicesRequest (st : HookState) (r : RequestState) : HookState :=
  { st with getMediaDevicesRequest := r, gmdWrites := st.gmdWrites ++ [r] }

/-- The synchronous prefix of `initiateStream`, everything executed
before the `await navigator.mediaDevices.getUserMedia(...)` call:
`setError(null); setGetStreamRequest(REQUEST_STATES.PENDING)`. -/
def initiateStreamPre (st : HookState) : HookState :=
  setGetStreamRequest { st with error := none } RequestState.PENDING

/-- The continuation of `initiateStream` from the host call onward:
logs the constraints handed to `getUserMedia`; on success attaches the
internal ended/mute listeners (observer delivery is modelled by the
`handleOn...` operations below), stores the handle and fulfills; on
failure rejects, records the error and returns null. -/
def initiateStreamPost (st : HookState) (c : JVal) (host : GumResult) :
    HookState × Option MediaStream :=
  let st := { st with gumArgs := st.gumArgs ++ [c] }
  match host with
  | GumResult.ok s =>
      (setGetStreamRequest { st with stream := some s } RequestState.FULFILLED, some s)
  | GumResult.err e =>
      ({ setGetStreamRequest st RequestState.REJECTED with error := some e }, none)

/-- `initiateStream(mediaDeviceConstraintsFromArgs = mediaDeviceConstraints)`;
`cArg = none` is a call without argument, using the stored constraints. -/
def initiateStream (st : HookState) (cArg : Option JVal) (host : GumResult) :
    HookState × Option MediaStream :=
  initiateStreamPost (initiateStreamPre st) (cArg.getD st.mediaDeviceConstraints) host

/-- `start()`. -/
def start (st : HookState) (host : GumResult) : HookState × Option MediaStream :=
  if st.isStreaming then (st, st.stream)
  else
    match st.stream with
    | some s => ({ st with isStreaming := true }, some s)
    | none =>
      match initiateStream st none host with
      | (st1, some s) => ({ st1 with isStreaming := true }, some s)
      | (st1, none) => (st1, none)

/-- `stop()`: removes the internal listeners (no state effect in this
model), stops every track, clears the handle and resets the flags. -/
def stop (st : HookState) : HookState :=
  if !st.isStreaming then st
  else
    match st.stream with
    | none => st
    | some s =>
      { setGetStreamRequest
          { st with
            stoppedTrackIds := st.stoppedTrackIds ++ (s.getTracks.map MediaStreamTrack.id),
            stream := none,
            isStreaming := false }
          RequestState.IDLE
        with error := none }

/-- `getMediaDevices()`; `gum` is the host outcome of the implicit
acquisition (consulted only when no handle exists), `enum` the outcome
of `enumerateDevices`. -/
def getMediaDevices (st : HookState) (gum : GumResult) (enum : EnumResult) :
    HookState × List MediaDeviceInfo :=
  if !st.isSupported then
    ({ setGetMediaDevicesRequest st RequestState.REJECTED
        with error := some browserNotSupportedError }, [])
  else
    let st := setGetMediaDevicesRequest { st with error := none } RequestState.PENDING
    let st := if st.stream.isNone then (initiateStream st none gum).1 else st
    match enum with
    | EnumResult.ok ds =>
        (setGetMediaDevicesRequest { st with devices := ds } RequestState.FULFILLED, ds)
    | EnumResult.err e =>
        ({ setGetMediaDevicesRequest st RequestState.REJECTED with error := some e }, [])

/-- `updateMediaDeviceConstraints({constraints, resetStream})`.  The
`setIsStreaming(false)` the source issues just before `stop()` is
absorbed here: `stop` reads the render snapshot of `isStreaming` (not
the queued write), and the final `setIsStreaming(isAlreadyStreaming)`
overrides the queued value in every path. -/
def updateMediaDeviceConstraints (st : HookState) (constraints : JVal)
    (resetStream : Bool) (host : GumResult) : HookState :=
  let updated := mergeJ st.mediaDeviceConstraints constraints
  let st := { st with mediaDeviceConstraints := updated }
  if resetStream then
    let isAlreadyStreaming := st.isStreaming
    let st := stop st
    let st := (initiateStream st (some updated) host).1
    { st with isStreaming := isAlreadyStreaming }
  else st

/-- `muteAudio()`. -/
def muteAudio (st : HookState) : HookState :=
  match st.stream with
  | none => st
  | some s => { st with stream := some (s.setAudioEnabled false), isAudioMuted := true }

/-- `unmuteAudio()`. -/
def unmuteAudio (st : HookState) : HookState :=
  match st.stream with
  | none => st
  | some s => { st with stream := some (s.setAudioEnabled true), isAudioMuted := false }

/-- `muteVideo()`. -/
def muteVideo (st : HookState) : HookState :=
  match st.stream with
  | none => st
  | some s => { st with stream := some (s.setVideoEnabled false), isVideoMuted := true }

/-- `unmuteVideo()`. -/
def unmuteVideo (st : HookState) : HookState :=
  match st.stream with
  | none => st
  | some s => { st with stream := some (s.setVideoEnabled true), isVideoMuted := false }

/-- Delivery of the internal track "ended" observer
(`handleOnVideoOrAudioEndedEvent`). -/
def handleOnVideoOrAudioEndedEvent (st : HookState) : HookState :=
  { st with isStreaming := false }

/-- Delivery of the internal audio "mute" observer. -/
def handleOnAudioMuteEvent (st : HookState) : HookState :=
  { st with isAudioMuted := true }

/-- Delivery of the internal video "mute" observer. -/
def handleOnVideoMuteEvent (st : HookState) : HookState :=
  { st with isVideoMuted := true }

end Hook

namespace HookB

/-- The reactive cells of the older duplicate implementation.  It has no
error cell (`// TODO: add global error`).  The last four fields are the
same ghost instrumentation as in `Hook.HookState`. -/
structure HookState where
  isSupported : Bool
  mediaDeviceConstraints : JVal
  getStreamRequest : RequestState
  getMediaDevicesRequest : RequestState
  devices : List MediaDeviceInfo
  isStreaming : Bool
  isAudioMuted : Bool
  isVideoMuted : Bool
  stream : Option MediaStream
  gsWrites : List RequestState
  gmdWrites : List RequestState
  gumArgs : List JVal
  stoppedTrackIds : List Nat
deriving Repr

/-- `setGetStreamRequest(r)`, with the ghost write log. -/
def setGetStreamRequest (st : HookState) (r : RequestState) : HookState :=
  { st with getStreamRequest := r, gsWrites := st.gsWrites ++ [r] }

/-- `setGetMediaDevicesRequest(r)`, with the ghost write log. -/
def setGetMediaDevicesRequest (st : HookState) (r : RequestState) : HookState :=
  { st with getMediaDevicesRequest := r, gmdWrites := st.gmdWrites ++ [r] }

/-- The synchronous prefix of the older `initiateStream`:
`setGetStreamRequest(REQUEST_STATES.PENDING)` (no error cell to clear). -/
def initiateStreamPre (st : HookState) : HookState :=
  setGetStreamRequest st RequestState.PENDING

/-- The continuation of the older `initiateStream` from the host call
onward.  On failure it annotates known error categories and rethrows,
so the result is an `Except`. -/
def initiateStreamPost (st : HookState) (c : JVal) (host : GumResult) :
    HookState × Except Err MediaStream :=
  let st := { st with gumArgs := st.gumArgs ++ [c] }
  match host with
  | GumResult.ok s =>
      (setGetStreamRequest { st with stream := some s } RequestState.FULFILLED,
       Except.ok s)
  | GumResult.err e =>
      (setGetStreamRequest st RequestState.REJECTED,
       Except.error (annotateGumError e))

/-- The older `initiateStream(mediaDeviceConstraintsFromArgs = mediaDeviceConstraints)`. -/
def initiateStream (st : HookState) (cArg : Option JVal) (host : GumResult) :
    HookState × Except Err MediaStream :=
  initiateStreamPost (initiateStreamPre st) (cArg.getD st.mediaDeviceConstraints) host

/-- The older `start()`: when already streaming it executes a bare
`return;`, resolving to no value (`Except.ok none`); otherwise it always
re-acquires (no reuse of a leftover handle) and lets an acquisition
failure propagate. -/
def start (st : HookState) (host : GumResult) :
    HookState × Except Err (Option MediaStream) :=
  if st.isStreaming then (st, Except.ok none)
  else
    match initiateStream st none host with
    | (st1, Except.ok s) => ({ st1 with isStreaming := true }, Except.ok (some s))
    | (st1, Except.error e) => (st1, Except.error e)

/-- The older `stop()`: stops the tracks of the current handle (if any),
clears the handle and the streaming flag, resets the request state. -/
def stop (st : HookState) : HookState :=
  if !st.isStreaming then st
  else
    let stopped := match st.stream with
      | some s => s.getTracks.map MediaStreamTrack.id
      | none => []
    setGetStreamRequest
      { st with
        stoppedTrackIds := st.stoppedTrackIds ++ stopped,
        stream := none,
        isStreaming := false }
      RequestState.IDLE

/-- The older `getMediaDevices()`: sets PENDING before the support
check; a throwing implicit acquisition is caught by the surrounding
try/catch (which records no error: `// TODO: handle error`). -/
def getMediaDevices (st : HookState) (gum : GumResult) (enum : EnumResult) :
    HookState × List MediaDeviceInfo :=
  let st := setGetMediaDevicesRequest st RequestState.PENDING
  if !st.isSupported then
    (setGetMediaDevicesRequest st RequestState.REJECTED, [])
  else
    let acq : HookState × Option Err :=
      if st.stream.isNone then
        match initiateStream st none gum with
        | (st1, Except.ok _) => (st1, none)
        | (st1, Except.error e) => (st1, some e)
      else (st, none)
    match acq with
    | (st1, some _) => (setGetMediaDevicesRequest st1 RequestState.REJECTED, [])
    | (st1, none) =>
      match enum with
      | EnumResult.ok ds =>
          (setGetMediaDevicesRequest { st1 with devices := ds } RequestState.FULFILLED, ds)
      | EnumResult.err _ =>
          (setGetMediaDevicesRequest st1 RequestState.REJECTED, [])

/-- The older `updateMediaDeviceConstraints({constraints, resetStream})`:
after a reset it sets the streaming flag to true unconditionally; an
acquisition failure propagates before that write. -/
def updateMediaDeviceConstraints (st : HookState) (constraints : JVal)
    (resetStream : Bool) (host : GumResult) : HookState × Except Err Unit :=
  let updated := mergeJ st.mediaDeviceConstraints constraints
  let st := { st with mediaDeviceConstraints := updated }
  if resetStream then
    let st := stop st
    match initiateStream st (some updated) host with
    | (st1, Except.ok _) => ({ st1 with isStreaming := true }, Except.ok ())
    | (st1, Except.error e) => (st1, Except.error e)
  else (st, Except.ok ())

/-- The older `muteAudio()`: guarded by `isStreaming`, not by the
handle; the optional chaining skips the tracks when the handle is null
but `setIsAudioMuted(true)` still runs. -/
def muteAudio (st : HookState) : HookState :=
  if !st.isStreaming then st
  else
    match st.stream with
    | none => { st with isAudioMuted := true }
    | some s => { st with stream := some (s.setAudioEnabled false), isAudioMuted := true }

/-- The older `unmuteAudio()`. -/
def unmuteAudio (st : HookState) : HookState :=
  if !st.isStreaming then st
  else
    match st.stream with
    | none => { st with isAudioMuted := false }
    | some s => { st with stream := some (s.setAudioEnabled true), isAudioMuted := false }

/-- The older `muteVideo()`. -/
def muteVideo (st : HookState) : HookState :=
  if !st.isStreaming then st
  else
    match st.stream with
    | none => { st with isVideoMuted := true }
    | some s => { st with stream := some (s.setVideoEnabled false), isVideoMuted := true }

/-- The older `unmuteVideo()`. -/
def unmuteVideo (st : HookState) : HookState :=
  if !st.isStreaming then st
  else
    match st.stream with
    | none => { st with isVideoMuted := false }
    | some s => { st with stream := some (s.setVideoEnabled true), isVideoMuted := false }

/-- Delivery of the older variant's inline track "ended" listener. -/
def handleEndedEvent (st : HookState) : HookState :=
  { st with isStreaming := false }

end HookB

/-- A sample handle with two audio tracks and one video track, used by
witnesses. -/
def sampleStream : MediaStream :=
  { id := 0,
    audioTracks := [{ id := 1, enabled := true }, { id := 2, enabled := false }],
    videoTracks := [{ id := 3, enabled := true }] }

/-- A second sample handle. -/
def sampleStream2 : MediaStream :=
  { id := 7, audioTracks := [{ id := 8, enabled := true }], videoTracks := [] }

/-- A sample primary-hook state holding `sampleStream` while streaming. -/
def sampleState : Hook.HookState :=
  { isSupported := true,
    mediaDeviceConstraints := defaultMediaDeviceConstraints,
    getStreamRequest := RequestState.FULFILLED,
    getMediaDevicesRequest := RequestState.IDLE,
    isStreaming := true,
    error := none,
    devices := [],
    isAudioMuted := false,
    isVideoMuted := false,
    stream := some sampleStream,
    gsWrites := [],
    gmdWrites := [],
    gumArgs := [],
    stoppedTrackIds := [] }

/-- A sample primary-hook state with no handle, not streaming. -/
def idleState : Hook.HookState :=
  { isSupported := true,
    mediaDeviceConstraints := defaultMediaDeviceConstraints,
    getStreamRequest := RequestState.IDLE,
    getMediaDevicesRequest := RequestState.IDLE,
    isStreaming := false,
    error := none,
    devices := [],
    isAudioMuted := false,
    isVideoMuted := false,
    stream := none,
    gsWrites := [],
    gmdWrites := [],
    gumArgs := [],
    stoppedTrackIds := [] }

/-- A sample error value. -/
def sampleErr : Err := { name := "NotAllowedError", message := "denied" }

/-- Claim C8: every acquisition call, in both implementations, sets the
acquisition request state to PENDING in its synchronous prefix, before
the host capture request is issued (the prefix logs no host call), and
the whole operation factors as that prefix followed by the host call and
its continuation. -/
theorem C8_pending_set_before_host_call :
    (∀ st : Hook.HookState,
        (Hook.initiateStreamPre st).getStreamRequest = RequestState.PENDING ∧
        (Hook.initiateStreamPre st).gumArgs = st.gumArgs) ∧
    (∀ (st : Hook.HookState) (cArg : Option JVal) (host : GumResult),
        Hook.initiateStream st cArg host
          = Hook.initiateStreamPost (Hook.initiateStreamPre st)
              (cArg.getD st.mediaDeviceConstraints) host) ∧
    (∀ st : HookB.HookState,
        (HookB.initiateStreamPre st).getStreamRequest = RequestState.PENDING ∧
        (HookB.initiateStreamPre st).gumArgs = st.gumArgs) ∧
    (∀ (st : HookB.HookState) (cArg : Option JVal) (host : GumResult),
        HookB.initiateStream st cArg host
          = HookB.initiateStreamPost (HookB.initiateStreamPre st)
              (cArg.getD st.mediaDeviceConstraints) host) :=
  ⟨fun _ => ⟨rfl, rfl⟩, fun _ _ _ => rfl, fun _ => ⟨rfl, rfl⟩, fun _ _ _ => rfl⟩

/-- Claim C9: in both implementations, an acquisition performed while a
handle already exists silently installs the new handle as the stored
one, and no `track.stop()` is ever invoked during an acquisition, so
the superseded tracks are never stopped by acquire itself. -/
theorem C9_supersede_without_stopping :
    (∀ (st : Hook.HookState) (cArg : Option JVal) (s : MediaStream),
        ((Hook.initiateStream st cArg (GumResult.ok s)).1).stream = some s) ∧
    (∀ (st : Hook.HookState) (cArg : Option JVal) (host : GumResult),
        ((Hook.initiateStream st cArg host).1).stoppedTrackIds = st.stoppedTrackIds) ∧
    (∀ (st : HookB.HookState) (cArg : Option JVal) (s : MediaStream),
        ((HookB.initiateStream st cArg (GumResult.ok s)).1).stream = some s) ∧
    (∀ (st : HookB.HookState) (cArg : Option JVal) (host : GumResult),
        ((HookB.initiateStream st cArg host).1).stoppedTrackIds = st.stoppedTrackIds) :=
  ⟨fun _ _ _ => rfl,
   fun _ _ host => by cases host <;> rfl,
   fun _ _ _ => rfl,
   fun _ _ host => by cases host <;> rfl⟩

/-- Claim C10: a failed acquisition changes only the acquisition request
state (to REJECTED) and, in the primary implementation, the recorded
error; the handle, device lists, streaming flag, mute booleans,
constraints and enumeration request state are exactly as before, and the
previously held handle is never cleared or replaced.  The older variant
rethrows the (category-annotated) error after the same frame-preserving
rejection. -/
theorem C10_failed_acquisition_frame :
    (∀ (st : Hook.HookState) (cArg : Option JVal) (e : Err),
        (Hook.initiateStream st cArg (GumResult.err e)).2 = none ∧
        ((Hook.initiateStream st cArg (GumResult.err e)).1).stream = st.stream ∧
        ((Hook.initiateStream st cArg (GumResult.err e)).1).devices = st.devices ∧
        ((Hook.initiateStream st cArg (GumResult.err e)).1).isStreaming = st.isStreaming ∧
        ((Hook.initiateStream st cArg (GumResult.err e)).1).isAudioMuted = st.isAudioMuted ∧
        ((Hook.initiateStream st cArg (GumResult.err e)).1).isVideoMuted = st.isVideoMuted ∧
        ((Hook.initiateStream st cArg (GumResult.err e)).1).getMediaDevicesRequest
          = st.getMediaDevicesRequest ∧
        ((Hook.initiateStream st cArg (GumResult.err e)).1).mediaDeviceConstraints
          = st.mediaDeviceConstraints ∧
        ((Hook.initiateStream st cArg (GumResult.err e)).1).getStreamRequest
          = RequestState.REJECTED ∧
        ((Hook.initiateStream st cArg (GumResult.err e)).1).error = some e) ∧
    (∀ (st : HookB.HookState) (cArg : Option JVal) (e : Err),
        (HookB.initiateStream st cArg (GumResult.err e)).2
          = Except.error (annotateGumError e) ∧
        ((HookB.initiateStream st cArg (GumResult.err e)).1).stream = st.stream ∧
        ((HookB.initiateStream st cArg (GumResult.err e)).1).devices = st.devices ∧
        ((HookB.initiateStream st cArg (GumResult.err e)).1).isStreaming = st.isStreaming ∧
        ((HookB.initiateStream st cArg (GumResult.err e)).1).isAudioMuted = st.isAudioMuted ∧
        ((HookB.initiateStream st cArg (GumResult.err e)).1).isVideoMuted = st.isVideoMuted ∧
        ((HookB.initiateStream st cArg (GumResult.err e)).1).getMediaDevicesRequest
          = st.getMediaDevicesRequest ∧
        ((HookB.initiateStream st cArg (GumResult.err e)).1).mediaDeviceConstraints
          = st.mediaDeviceConstraints ∧
        ((HookB.initiateStream st cArg (GumResult.err e)).1).getStreamRequest
          = RequestState.REJECTED) :=
  ⟨fun _ _ _ => ⟨rfl, rfl, rfl, rfl, rfl, rfl, rfl, rfl, rfl, rfl⟩,
   fun _ _ _ => ⟨rfl, rfl, rfl, rfl, rfl, rfl, rfl, rfl, rfl⟩⟩

/-- Claim C6: when the internal track-ended observer fires, the
streaming flag becomes false while the handle, device lists, mute
booleans, both request states and (in the primary implementation) the
error are unchanged, in both implementations; and the handle is cleared
only by an explicit `stop` — the mute controls, the internal observers,
acquisition, `start` and `getMediaDevices` never turn a held handle into
an absent one, while `stop` from a streaming state with a handle does
clear it. -/
theorem C6_ended_observer_soft_transition :
    (∀ st : Hook.HookState,
        (Hook.handleOnVideoOrAudioEndedEvent st).isStreaming = false ∧
        (Hook.handleOnVideoOrAudioEndedEvent st).stream = st.stream ∧
        (Hook.handleOnVideoOrAudioEndedEvent st).devices = st.devices ∧
        (Hook.handleOnVideoOrAudioEndedEvent st).isAudioMuted = st.isAudioMuted ∧
        (Hook.handleOnVideoOrAudioEndedEvent st).isVideoMuted = st.isVideoMuted ∧
        (Hook.handleOnVideoOrAudioEndedEvent st).getStreamRequest = st.getStreamRequest ∧
        (Hook.handleOnVideoOrAudioEndedEvent st).getMediaDevicesRequest
          = st.getMediaDevicesRequest ∧
        (Hook.handleOnVideoOrAudioEndedEvent st).error = st.error) ∧
    (∀ st : HookB.HookState,
        (HookB.handleEndedEvent st).isStreaming = false ∧
        (HookB.handleEndedEvent st).stream = st.stream ∧
        (HookB.handleEndedEvent st).devices = st.devices ∧
        (HookB.handleEndedEvent st).isAudioMuted = st.isAudioMuted ∧
        (HookB.handleEndedEvent st).isVideoMuted = st.isVideoMuted ∧
        (HookB.handleEndedEvent st).getStreamRequest = st.getStreamRequest ∧
        (HookB.handleEndedEvent st).getMediaDevicesRequest = st.getMediaDevicesRequest) ∧
    (∀ st : Hook.HookState,
        (Hook.muteAudio st).stream.isSome = st.stream.isSome ∧
        (Hook.unmuteAudio st).stream.isSome = st.stream.isSome ∧
        (Hook.muteVideo st).stream.isSome = st.stream.isSome ∧
        (Hook.unmuteVideo st).stream.isSome = st.stream.isSome ∧
        (Hook.handleOnAudioMuteEvent st).stream = st.stream ∧
        (Hook.handleOnVideoMuteEvent st).stream = st.stream) ∧
    (∀ (st : Hook.HookState) (cArg : Option JVal) (s : MediaStream),
        ((Hook.initiateStream st cArg (GumResult.ok s)).1).stream.isSome = true) ∧
    (∀ (st : Hook.HookState) (cArg : Option JVal) (e : Err),
        ((Hook.initiateStream st cArg (GumResult.err e)).1).stream = st.stream) ∧
    (∀ (st : Hook.HookState) (host : GumResult),
        st.stream.isSome = true → ((Hook.start st host).1).stream = st.stream) ∧
    (∀ (st : Hook.HookState) (gum : GumResult) (enum : EnumResult),
        st.stream.isSome = true →
          ((Hook.getMediaDevices st gum enum).1).stream = st.stream) ∧
    (∀ (st : Hook.HookState) (s : MediaStream),
        st.isStreaming = true → st.stream = some s → (Hook.stop st).stream = none) := by
  refine ⟨fun st => ⟨rfl, rfl, rfl, rfl, rfl, rfl, rfl, rfl⟩,
          fun st => ⟨rfl, rfl, rfl, rfl, rfl, rfl, rfl⟩,
          fun st => ⟨?_, ?_, ?_, ?_, rfl, rfl⟩,
          fun st cArg s => rfl,
          fun st cArg e => rfl,
          fun st host h => ?_,
          fun st gum enum h => ?_,
          fun st s hstr hsome => ?_⟩
  · cases hs : st.stream <;> simp [Hook.muteAudio, hs]
  · cases hs : st.stream <;> simp [Hook.unmuteAudio, hs]
  · cases hs : st.stream <;> simp [Hook.muteVideo, hs]
  · cases hs : st.stream <;> simp [Hook.unmuteVideo, hs]
  · cases hstr : st.isStreaming with
    | true => simp [Hook.start, hstr]
    | false =>
      cases hs : st.stream with
      | some s => simp [Hook.start, hstr, hs]
      | none => simp [hs] at h
  · cases hsup : st.isSupported with
    | false => simp [Hook.getMediaDevices, hsup, Hook.setGetMediaDevicesRequest]
    | true =>
      cases hs : st.stream with
      | none => simp [hs] at h
      | some s =>
        cases enum <;>
          simp [Hook.getMediaDevices, hsup, hs, Hook.setGetMediaDevicesRequest]
  · simp [Hook.stop, hstr, hsome, Hook.setGetStreamRequest]

/-- Witness for C6: the hypothesis-bearing conjuncts applied to the
sample streaming state. -/
theorem C6_witness :
    ((Hook.start sampleState (GumResult.ok sampleStream2)).1).stream
      = sampleState.stream ∧
    ((Hook.getMediaDevices sampleState (GumResult.ok sampleStream2)
        (EnumResult.ok [])).1).stream = sampleState.stream ∧
    (Hook.stop sampleState).stream = none := by
  obtain ⟨-, -, -, -, -, hstart, hgmd, hstop⟩ := C6_ended_observer_soft_transition
  exact ⟨hstart sampleState (GumResult.ok sampleStream2) rfl,
         hgmd sampleState (GumResult.ok sampleStream2) (EnumResult.ok []) rfl,
         hstop sampleState sampleStream rfl rfl⟩

/-- A sample older-variant state holding `sampleStream` while streaming. -/
def sampleStateB : HookB.HookState :=
  { isSupported := true,
    mediaDeviceConstraints := defaultMediaDeviceConstraints,
    getStreamRequest := RequestState.FULFILLED,
    getMediaDevicesRequest := RequestState.IDLE,
    devices := [],
    isStreaming := true,
    isAudioMuted := false,
    isVideoMuted := false,
    stream := some sampleStream,
    gsWrites := [],
    gmdWrites := [],
    gumArgs := [],
    stoppedTrackIds := [] }

/-- Counterexample to claim C2: in the older variant, `start()` while
already streaming resolves to no value (a bare `return;`) instead of the
currently held handle. -/
theorem C2_counterexample :
    sampleStateB.isStreaming = true ∧
    sampleStateB.stream = some sampleStream ∧
    (HookB.start sampleStateB (GumResult.ok sampleStream2)).2 = Except.ok none :=
  ⟨rfl, rfl, rfl⟩

/-- Claim C2 as amended: in the primary implementation, `start()` while
streaming performs no acquisition and no state change and returns the
held handle, and two `start()` calls without an intervening `stop()`
issue exactly one host acquisition with both calls resolving to the same
handle.  In the older variant the second call still performs no
acquisition and no state change, but resolves to no value rather than
the held handle. -/
theorem C2_start_idempotent_amended :
    (∀ (st : Hook.HookState) (host : GumResult),
        st.isStreaming = true → Hook.start st host = (st, st.stream)) ∧
    (∀ (st : Hook.HookState) (s : MediaStream) (host2 : GumResult),
        st.isStreaming = false → st.stream = none →
          (Hook.start st (GumResult.ok s)).2 = some s ∧
          ((Hook.start st (GumResult.ok s)).1).gumArgs
            = st.gumArgs ++ [st.mediaDeviceConstraints] ∧
          Hook.start ((Hook.start st (GumResult.ok s)).1) host2
            = ((Hook.start st (GumResult.ok s)).1, some s)) ∧
    (∀ (st : HookB.HookState) (host : GumResult),
        st.isStreaming = true → HookB.start st host = (st, Except.ok none)) := by
  refine ⟨fun st host h => by simp [Hook.start, h],
          fun st s host2 h1 h2 => ?_,
          fun st host h => by simp [HookB.start, h]⟩
  refine ⟨?_, ?_, ?_⟩ <;>
    simp [Hook.start, Hook.initiateStream, Hook.initiateStreamPre,
      Hook.initiateStreamPost, Hook.setGetStreamRequest, h1, h2]

/-- Witness for C2: the amended behavior at the sample states. -/
theorem C2_witness :
    Hook.start sampleState (GumResult.ok sampleStream2)
      = (sampleState, sampleState.stream) ∧
    (Hook.start idleState (GumResult.ok sampleStream)).2 = some sampleStream ∧
    HookB.start sampleStateB (GumResult.ok sampleStream2)
      = (sampleStateB, Except.ok none) := by
  obtain ⟨hA, hTwo, hB⟩ := C2_start_idempotent_amended
  exact ⟨hA sampleState (GumResult.ok sampleStream2) rfl,
         (hTwo idleState sampleStream (GumResult.ok sampleStream2) rfl rfl).1,
         hB sampleStateB (GumResult.ok sampleStream2) rfl⟩

/-- A sample older-variant state with no handle, not streaming. -/
def idleStateB : HookB.HookState :=
  { isSupported := true,
    mediaDeviceConstraints := defaultMediaDeviceConstraints,
    getStreamRequest := RequestState.IDLE,
    getMediaDevicesRequest := RequestState.IDLE,
    devices := [],
    isStreaming := false,
    isAudioMuted := false,
    isVideoMuted := false,
    stream := none,
    gsWrites := [],
    gmdWrites := [],
    gumArgs := [],
    stoppedTrackIds := [] }

/-- Counterexample to claim C3: in the older variant, a constraint reset
performed while not streaming ends with the streaming flag true — the
flag after the operation differs from the flag before it. -/
theorem C3_counterexample :
    idleStateB.isStreaming = false ∧
    ((HookB.updateMediaDeviceConstraints idleStateB (JVal.obj []) true
        (GumResult.ok sampleStream)).1).isStreaming = true := by
  constructor
  · rfl
  · simp [HookB.updateMediaDeviceConstraints, HookB.stop, HookB.initiateStream,
      HookB.initiateStreamPre, HookB.initiateStreamPost, HookB.setGetStreamRequest,
      idleStateB]

/-- Claim C3 as amended: in the primary implementation, every
`updateMediaDeviceConstraints` call with `resetStream` leaves the
streaming flag exactly as it was before the call, issues the
re-acquisition with the merged constraints, and on success stores the
newly acquired handle.  In the older variant the flag is set to true
unconditionally after a successful reset, so a reset while inactive
spuriously starts streaming. -/
theorem C3_reset_preserves_streaming_amended :
    (∀ (st : Hook.HookState) (c : JVal) (host : GumResult),
        (Hook.updateMediaDeviceConstraints st c true host).isStreaming
          = st.isStreaming) ∧
    (∀ (st : Hook.HookState) (c : JVal) (host : GumResult),
        (Hook.updateMediaDeviceConstraints st c true host).gumArgs
          = st.gumArgs ++ [mergeJ st.mediaDeviceConstraints c]) ∧
    (∀ (st : Hook.HookState) (c : JVal) (s : MediaStream),
        (Hook.updateMediaDeviceConstraints st c true (GumResult.ok s)).stream
          = some s) := by
  refine ⟨fun st c host => rfl, fun st c host => ?_, fun st c s => ?_⟩
  · cases hstr : st.isStreaming <;> cases hs : st.stream <;> cases host <;>
      simp [Hook.updateMediaDeviceConstraints, Hook.stop, Hook.initiateStream,
        Hook.initiateStreamPre, Hook.initiateStreamPost, Hook.setGetStreamRequest,
        hstr, hs]
  · cases hstr : st.isStreaming <;> cases hs : st.stream <;>
      simp [Hook.updateMediaDeviceConstraints, Hook.stop, Hook.initiateStream,
        Hook.initiateStreamPre, Hook.initiateStreamPost, Hook.setGetStreamRequest,
        hstr, hs]

/-- An older-variant state that holds a handle but is not streaming
(e.g. after a device-enumeration call, or after a track ended). -/
def heldNotStreamingB : HookB.HookState :=
  { sampleStateB with isStreaming := false }

/-- Counterexample to claim C5: in the older variant, `muteAudio()` is a
no-op in a state that does hold a handle (but is not streaming), so the
mute controls are not "a no-op exactly when no StreamHandle is held":
the guard is the streaming flag. -/
theorem C5_counterexample :
    heldNotStreamingB.stream = some sampleStream ∧
    heldNotStreamingB.isAudioMuted = false ∧
    (sampleStream.audioTracks.map MediaStreamTrack.enabled) = [true, false] ∧
    HookB.muteAudio heldNotStreamingB = heldNotStreamingB :=
  ⟨rfl, rfl, rfl, rfl⟩

/-- Claim C5 as amended: in the primary implementation each
mute/unmute operation is the identity exactly on the guard "no handle
held"; with a handle held it sets the `enabled` flag of every track of
its kind and the matching mute boolean (and changes nothing else), and
mute followed by unmute leaves every track of that kind enabled and the
mute boolean false, for any number of tracks including zero.  In the
older variant the guard is the streaming flag instead of the handle. -/
theorem C5_mute_controls_amended :
    (∀ st : Hook.HookState, st.stream = none →
        Hook.muteAudio st = st ∧ Hook.unmuteAudio st = st ∧
        Hook.muteVideo st = st ∧ Hook.unmuteVideo st = st) ∧
    (∀ (st : Hook.HookState) (s : MediaStream), st.stream = some s →
        Hook.muteAudio st
          = { st with stream := some (s.setAudioEnabled false), isAudioMuted := true } ∧
        Hook.unmuteAudio st
          = { st with stream := some (s.setAudioEnabled true), isAudioMuted := false } ∧
        Hook.muteVideo st
          = { st with stream := some (s.setVideoEnabled false), isVideoMuted := true } ∧
        Hook.unmuteVideo st
          = { st with stream := some (s.setVideoEnabled true), isVideoMuted := false }) ∧
    (∀ (st : Hook.HookState) (s : MediaStream), st.stream = some s →
        (Hook.unmuteAudio (Hook.muteAudio st)).isAudioMuted = false ∧
        ((Hook.unmuteAudio (Hook.muteAudio st)).stream.map
            fun s2 => s2.audioTracks.all MediaStreamTrack.enabled) = some true) ∧
    (∀ (st : Hook.HookState) (s : MediaStream), st.stream = some s →
        (Hook.unmuteVideo (Hook.muteVideo st)).isVideoMuted = false ∧
        ((Hook.unmuteVideo (Hook.muteVideo st)).stream.map
            fun s2 => s2.videoTracks.all MediaStreamTrack.enabled) = some true) := by
  refine ⟨fun st h => ?_, fun st s h => ?_, fun st s h => ?_, fun st s h => ?_⟩
  · exact ⟨by simp [Hook.muteAudio, h], by simp [Hook.unmuteAudio, h],
           by simp [Hook.muteVideo, h], by simp [Hook.unmuteVideo, h]⟩
  · exact ⟨by simp [Hook.muteAudio, h], by simp [Hook.unmuteAudio, h],
           by simp [Hook.muteVideo, h], by simp [Hook.unmuteVideo, h]⟩
  · constructor
    · simp [Hook.muteAudio, Hook.unmuteAudio, h]
    · simp [Hook.muteAudio, Hook.unmuteAudio, h, MediaStream.setAudioEnabled,
        List.all_map, List.all_eq_true]
  · constructor
    · simp [Hook.muteVideo, Hook.unmuteVideo, h]
    · simp [Hook.muteVideo, Hook.unmuteVideo, h, MediaStream.setVideoEnabled,
        List.all_map, List.all_eq_true]

/-- Witness for C5: the amended behavior at the sample streaming state
(two audio tracks, one initially disabled) and at the idle state. -/
theorem C5_witness :
    Hook.muteAudio idleState = idleState ∧
    Hook.muteAudio sampleState
      = { sampleState with
          stream := some (sampleStream.setAudioEnabled false),
          isAudioMuted := true } ∧
    ((Hook.unmuteAudio (Hook.muteAudio sampleState)).stream.map
        fun s2 => s2.audioTracks.all MediaStreamTrack.enabled) = some true := by
  obtain ⟨hNone, hSome, hAudio, hVideo⟩ := C5_mute_controls_amended
  exact ⟨(hNone idleState rfl).1,
         (hSome sampleState sampleStream rfl).1,
         (hAudio sampleState sampleStream rfl).2⟩

/-- A sample device-list entry. -/
def sampleDevice : MediaDeviceInfo :=
  { deviceId := "d1", kind := "audioinput", label := "Mic" }

/-- Counterexample to claim C7: in the primary implementation, a failed
implicit acquisition is not a failure path of `getMediaDevices` at all —
with no prior handle and a failing host capture request, a successful
host enumeration still fulfills the enumeration request state and
returns a non-empty list (only the acquisition state is rejected). -/
theorem C7_counterexample :
    idleState.stream = none ∧
    (Hook.getMediaDevices idleState (GumResult.err sampleErr)
        (EnumResult.ok [sampleDevice])).2 = [sampleDevice] ∧
    ((Hook.getMediaDevices idleState (GumResult.err sampleErr)
        (EnumResult.ok [sampleDevice])).1).getMediaDevicesRequest
      = RequestState.FULFILLED ∧
    ((Hook.getMediaDevices idleState (GumResult.err sampleErr)
        (EnumResult.ok [sampleDevice])).1).getStreamRequest
      = RequestState.REJECTED :=
  ⟨rfl, rfl, rfl, rfl⟩

/-- Claim C7 as amended: the failure paths of `getMediaDevices` are the
unsupported environment and a host enumeration error; on each, the
enumeration request state is set to REJECTED and an empty list is
returned, with the primary implementation also recording the error (the
older variant records none).  A failed implicit acquisition aborts
enumeration only in the older variant (rejecting with an empty list); in
the primary implementation enumeration proceeds past it.  No path
propagates the error as an exception: both implementations always
return a list. -/
theorem C7_enumeration_failure_amended :
    (∀ (st : Hook.HookState) (gum : GumResult) (enum : EnumResult),
        st.isSupported = false →
          (Hook.getMediaDevices st gum enum).2 = [] ∧
          ((Hook.getMediaDevices st gum enum).1).getMediaDevicesRequest
            = RequestState.REJECTED ∧
          ((Hook.getMediaDevices st gum enum).1).error
            = some browserNotSupportedError) ∧
    (∀ (st : Hook.HookState) (gum : GumResult) (e : Err),
        st.isSupported = true →
          (Hook.getMediaDevices st gum (EnumResult.err e)).2 = [] ∧
          ((Hook.getMediaDevices st gum (EnumResult.err e)).1).getMediaDevicesRequest
            = RequestState.REJECTED ∧
          ((Hook.getMediaDevices st gum (EnumResult.err e)).1).error = some e) ∧
    (∀ (st : HookB.HookState) (gum : GumResult) (enum : EnumResult),
        st.isSupported = false →
          (HookB.getMediaDevices st gum enum).2 = [] ∧
          ((HookB.getMediaDevices st gum enum).1).getMediaDevicesRequest
            = RequestState.REJECTED) ∧
    (∀ (st : HookB.HookState) (e : Err) (enum : EnumResult),
        st.isSupported = true → st.stream = none →
          (HookB.getMediaDevices st (GumResult.err e) enum).2 = [] ∧
          ((HookB.getMediaDevices st (GumResult.err e) enum).1).getMediaDevicesRequest
            = RequestState.REJECTED) ∧
    (∀ (st : HookB.HookState) (gum : GumResult) (e : Err),
        st.isSupported = true →
          (HookB.getMediaDevices st gum (EnumResult.err e)).2 = [] ∧
          ((HookB.getMediaDevices st gum (EnumResult.err e)).1).getMediaDevicesRequest
            = RequestState.REJECTED) := by
  refine ⟨fun st gum enum h => ?_, fun st gum e h => ?_, fun st gum enum h => ?_,
          fun st e enum h hs => ?_, fun st gum e h => ?_⟩
  · exact ⟨by simp [Hook.getMediaDevices, h, Hook.setGetMediaDevicesRequest],
           by simp [Hook.getMediaDevices, h, Hook.setGetMediaDevicesRequest],
           by simp [Hook.getMediaDevices, h, Hook.setGetMediaDevicesRequest]⟩
  · refine ⟨?_, ?_, ?_⟩ <;>
      cases hs : st.stream <;> cases gum <;>
        simp [Hook.getMediaDevices, Hook.initiateStream, Hook.initiateStreamPre,
          Hook.initiateStreamPost, Hook.setGetStreamRequest,
          Hook.setGetMediaDevicesRequest, h, hs]
  · exact ⟨by simp [HookB.getMediaDevices, h, HookB.setGetMediaDevicesRequest],
           by simp [HookB.getMediaDevices, h, HookB.setGetMediaDevicesRequest]⟩
  · refine ⟨?_, ?_⟩ <;>
      simp [HookB.getMediaDevices, HookB.initiateStream, HookB.initiateStreamPre,
        HookB.initiateStreamPost, HookB.setGetStreamRequest,
        HookB.setGetMediaDevicesRequest, h, hs]
  · refine ⟨?_, ?_⟩ <;>
      cases hs : st.stream <;> cases gum <;>
        simp [HookB.getMediaDevices, HookB.initiateStream, HookB.initiateStreamPre,
          HookB.initiateStreamPost, HookB.setGetStreamRequest,
          HookB.setGetMediaDevicesRequest, h, hs]

/-- Witness for C7: the amended behavior at concrete states. -/
theorem C7_witness :
    (Hook.getMediaDevices { idleState with isSupported := false }
        (GumResult.ok sampleStream) (EnumResult.ok [sampleDevice])).2 = [] ∧
    (Hook.getMediaDevices sampleState (GumResult.ok sampleStream2)
        (EnumResult.err sampleErr)).2 = [] ∧
    (HookB.getMediaDevices { idleStateB with isSupported := false }
        (GumResult.ok sampleStream) (EnumResult.ok [sampleDevice])).2 = [] ∧
    (HookB.getMediaDevices idleStateB (GumResult.err sampleErr)
        (EnumResult.ok [sampleDevice])).2 = [] ∧
    (HookB.getMediaDevices sampleStateB (GumResult.ok sampleStream2)
        (EnumResult.err sampleErr)).2 = [] := by
  obtain ⟨h1, h2, h3, h4, h5⟩ := C7_enumeration_failure_amended
  exact ⟨(h1 { idleState with isSupported := false } (GumResult.ok sampleStream)
            (EnumResult.ok [sampleDevice]) rfl).1,
         (h2 sampleState (GumResult.ok sampleStream2) sampleErr rfl).1,
         (h3 { idleStateB with isSupported := false } (GumResult.ok sampleStream)
            (EnumResult.ok [sampleDevice]) rfl).1,
         (h4 idleStateB sampleErr (EnumResult.ok [sampleDevice]) rfl rfl).1,
         (h5 sampleStateB (GumResult.ok sampleStream2) sampleErr rfl).1⟩

/-- The request state an acquisition settles to. -/
def settleGum : GumResult → RequestState
  | GumResult.ok _ => RequestState.FULFILLED
  | GumResult.err _ => RequestState.REJECTED

/-- The request state an enumeration settles to. -/
def settleEnum : EnumResult → RequestState
  | EnumResult.ok _ => RequestState.FULFILLED
  | EnumResult.err _ => RequestState.REJECTED

theorem noSkipAux_pending_settle (init r : RequestState) :
    noSkipAux init [RequestState.PENDING, r] = true := by
  cases init <;> cases r <;> rfl

theorem noSkipAux_idle (init : RequestState) :
    noSkipAux init [RequestState.IDLE] = true := by
  cases init <;> rfl

theorem noSkipAux_idle_pending_settle (init r : RequestState) :
    noSkipAux init [RequestState.IDLE, RequestState.PENDING, r] = true := by
  cases init <;> cases r <;> rfl

theorem requestWritesOk_nil (init : RequestState) (l : List RequestState) :
    RequestWritesOk init l l :=
  ⟨[], by simp, rfl⟩

theorem hook_initiate_gsWrites (st : Hook.HookState) (cArg : Option JVal)
    (host : GumResult) :
    ((Hook.initiateStream st cArg host).1).gsWrites
      = st.gsWrites ++ [RequestState.PENDING, settleGum host] := by
  cases host <;>
    simp [Hook.initiateStream, Hook.initiateStreamPre, Hook.initiateStreamPost,
      Hook.setGetStreamRequest, settleGum]

theorem hook_initiate_gmdWrites (st : Hook.HookState) (cArg : Option JVal)
    (host : GumResult) :
    ((Hook.initiateStream st cArg host).1).gmdWrites = st.gmdWrites := by
  cases host <;> rfl

theorem hookB_initiate_gsWrites (st : HookB.HookState) (cArg : Option JVal)
    (host : GumResult) :
    ((HookB.initiateStream st cArg host).1).gsWrites
      = st.gsWrites ++ [RequestState.PENDING, settleGum host] := by
  cases host <;>
    simp [HookB.initiateStream, HookB.initiateStreamPre, HookB.initiateStreamPost,
      HookB.setGetStreamRequest, settleGum]

theorem hookB_initiate_gmdWrites (st : HookB.HookState) (cArg : Option JVal)
    (host : GumResult) :
    ((HookB.initiateStream st cArg host).1).gmdWrites = st.gmdWrites := by
  cases host <;> rfl

/-- The primary-hook state with the capture API unsupported. -/
def unsupportedState : Hook.HookState :=
  { idleState with isSupported := false }

/-- Counterexample to claim C1: in the primary implementation,
`getMediaDevices` in an unsupported environment writes REJECTED to the
device-enumeration request state as its only write, moving it from IDLE
directly to REJECTED without passing through PENDING. -/
theorem C1_counterexample :
    unsupportedState.getMediaDevicesRequest = RequestState.IDLE ∧
    unsupportedState.gmdWrites = [] ∧
    ((Hook.getMediaDevices unsupportedState (GumResult.ok sampleStream)
        (EnumResult.ok [sampleDevice])).1).gmdWrites = [RequestState.REJECTED] ∧
    ((Hook.getMediaDevices unsupportedState (GumResult.ok sampleStream)
        (EnumResult.ok [sampleDevice])).1).getMediaDevicesRequest
      = RequestState.REJECTED ∧
    noSkipAux RequestState.IDLE [RequestState.REJECTED] = false :=
  ⟨rfl, rfl, rfl, rfl, rfl⟩

theorem requestWritesOk_append (init : RequestState) (l ws : List RequestState)
    (h : noSkipAux init ws = true) : RequestWritesOk init l (l ++ ws) :=
  ⟨ws, rfl, h⟩

/-- Claim C1 as amended: in both implementations, every operation's
writes to either request-state cell settle to FULFILLED or REJECTED only
while the cell holds PENDING (resets to IDLE are unrestricted), with one
exception forcing the amendment: the primary implementation's
`getMediaDevices` in an unsupported environment, which moves the
enumeration request state directly to REJECTED (see the
counterexample); for it the no-skip property is stated under
`isSupported = true`. -/
theorem C1_no_skip_amended :
    (∀ (st : Hook.HookState) (cArg : Option JVal) (host : GumResult),
        RequestWritesOk st.getStreamRequest st.gsWrites
          ((Hook.initiateStream st cArg host).1).gsWrites) ∧
    (∀ (st : Hook.HookState) (host : GumResult),
        RequestWritesOk st.getStreamRequest st.gsWrites
          ((Hook.start st host).1).gsWrites) ∧
    (∀ st : Hook.HookState,
        RequestWritesOk st.getStreamRequest st.gsWrites (Hook.stop st).gsWrites) ∧
    (∀ (st : Hook.HookState) (gum : GumResult) (enum : EnumResult),
        RequestWritesOk st.getStreamRequest st.gsWrites
          ((Hook.getMediaDevices st gum enum).1).gsWrites) ∧
    (∀ (st : Hook.HookState) (c : JVal) (r : Bool) (host : GumResult),
        RequestWritesOk st.getStreamRequest st.gsWrites
          (Hook.updateMediaDeviceConstraints st c r host).gsWrites) ∧
    (∀ (st : Hook.HookState) (cArg : Option JVal) (host : GumResult),
        ((Hook.initiateStream st cArg host).1).gmdWrites = st.gmdWrites) ∧
    (∀ (st : Hook.HookState) (host : GumResult),
        ((Hook.start st host).1).gmdWrites = st.gmdWrites) ∧
    (∀ st : Hook.HookState, (Hook.stop st).gmdWrites = st.gmdWrites) ∧
    (∀ (st : Hook.HookState) (gum : GumResult) (enum : EnumResult),
        st.isSupported = true →
          RequestWritesOk st.getMediaDevicesRequest st.gmdWrites
            ((Hook.getMediaDevices st gum enum).1).gmdWrites) ∧
    (∀ (st : Hook.HookState) (c : JVal) (r : Bool) (host : GumResult),
        (Hook.updateMediaDeviceConstraints st c r host).gmdWrites = st.gmdWrites) ∧
    (∀ st : Hook.HookState,
        (Hook.muteAudio st).gsWrites = st.gsWrites ∧
        (Hook.muteAudio st).gmdWrites = st.gmdWrites ∧
        (Hook.unmuteAudio st).gsWrites = st.gsWrites ∧
        (Hook.unmuteAudio st).gmdWrites = st.gmdWrites ∧
        (Hook.muteVideo st).gsWrites = st.gsWrites ∧
        (Hook.muteVideo st).gmdWrites = st.gmdWrites ∧
        (Hook.unmuteVideo st).gsWrites = st.gsWrites ∧
        (Hook.unmuteVideo st).gmdWrites = st.gmdWrites ∧
        (Hook.handleOnVideoOrAudioEndedEvent st).gsWrites = st.gsWrites ∧
        (Hook.handleOnVideoOrAudioEndedEvent st).gmdWrites = st.gmdWrites) ∧
    (∀ (st : HookB.HookState) (cArg : Option JVal) (host : GumResult),
        RequestWritesOk st.getStreamRequest st.gsWrites
          ((HookB.initiateStream st cArg host).1).gsWrites) ∧
    (∀ (st : HookB.HookState) (host : GumResult),
        RequestWritesOk st.getStreamRequest st.gsWrites
          ((HookB.start st host).1).gsWrites) ∧
    (∀ st : HookB.HookState,
        RequestWritesOk st.getStreamRequest st.gsWrites (HookB.stop st).gsWrites) ∧
    (∀ (st : HookB.HookState) (gum : GumResult) (enum : EnumResult),
        RequestWritesOk st.getStreamRequest st.gsWrites
          ((HookB.getMediaDevices st gum enum).1).gsWrites) ∧
    (∀ (st : HookB.HookState) (gum : GumResult) (enum : EnumResult),
        RequestWritesOk st.getMediaDevicesRequest st.gmdWrites
          ((HookB.getMediaDevices st gum enum).1).gmdWrites) ∧
    (∀ (st : HookB.HookState) (c : JVal) (r : Bool) (host : GumResult),
        RequestWritesOk st.getStreamRequest st.gsWrites
          ((HookB.updateMediaDeviceConstraints st c r host).1).gsWrites) ∧
    (∀ (st : HookB.HookState) (host : GumResult) (cArg : Option JVal) (c : JVal) (r : Bool),
        ((HookB.initiateStream st cArg host).1).gmdWrites = st.gmdWrites ∧
        ((HookB.start st host).1).gmdWrites = st.gmdWrites ∧
        (HookB.stop st).gmdWrites = st.gmdWrites ∧
        ((HookB.updateMediaDeviceConstraints st c r host).1).gmdWrites = st.gmdWrites) := by
  refine ⟨fun st cArg host => ?_, fun st host => ?_, fun st => ?_,
          fun st gum enum => ?_, fun st c r host => ?_,
          fun st cArg host => hook_initiate_gmdWrites st cArg host,
          fun st host => ?_, fun st => ?_, fun st gum enum h => ?_,
          fun st c r host => ?_, fun st => ?_,
          fun st cArg host => ?_, fun st host => ?_, fun st => ?_,
          fun st gum enum => ?_, fun st gum enum => ?_,
          fun st c r host => ?_, fun st host cArg c r => ?_⟩
  · rw [hook_initiate_gsWrites]
    exact requestWritesOk_append _ _ _ (noSkipAux_pending_settle _ _)
  · cases hstr : st.isStreaming with
    | true =>
      simp only [Hook.start, hstr, if_true]
      exact requestWritesOk_nil _ _
    | false =>
      cases hs : st.stream with
      | some s =>
        simp only [Hook.start, hstr, hs, Bool.false_eq_true, if_false]
        exact requestWritesOk_nil _ _
      | none =>
        cases host <;>
          · simp [Hook.start, Hook.initiateStream, Hook.initiateStreamPre,
              Hook.initiateStreamPost, Hook.setGetStreamRequest, hstr, hs]
            exact requestWritesOk_append _ _ _ (noSkipAux_pending_settle _ _)
  · cases hstr : st.isStreaming with
    | false =>
      simp only [Hook.stop, hstr, Bool.not_false, if_true]
      exact requestWritesOk_nil _ _
    | true =>
      cases hs : st.stream with
      | none =>
        simp only [Hook.stop, hstr, Bool.not_true, Bool.false_eq_true, if_false, hs]
        exact requestWritesOk_nil _ _
      | some s =>
        simp [Hook.stop, hstr, hs, Hook.setGetStreamRequest]
        exact requestWritesOk_append _ _ _ (noSkipAux_idle _)
  · cases hsup : st.isSupported with
    | false =>
      simp [Hook.getMediaDevices, hsup, Hook.setGetMediaDevicesRequest]
      exact requestWritesOk_nil _ _
    | true =>
      cases hs : st.stream with
      | some s =>
        cases enum <;>
          · simp [Hook.getMediaDevices, hsup, hs, Hook.setGetMediaDevicesRequest]
            exact requestWritesOk_nil _ _
      | none =>
        cases gum <;> cases enum <;>
          · simp [Hook.getMediaDevices, hsup, hs, Hook.setGetMediaDevicesRequest,
              Hook.initiateStream, Hook.initiateStreamPre, Hook.initiateStreamPost,
              Hook.setGetStreamRequest]
            exact requestWritesOk_append _ _ _ (noSkipAux_pending_settle _ _)
  · cases r with
    | false =>
      simp only [Hook.updateMediaDeviceConstraints, Bool.false_eq_true, if_false]
      exact requestWritesOk_nil _ _
    | true =>
      cases hstr : st.isStreaming <;> cases hs : st.stream <;> cases host <;>
        · simp [Hook.updateMediaDeviceConstraints, Hook.stop, Hook.initiateStream,
            Hook.initiateStreamPre, Hook.initiateStreamPost,
            Hook.setGetStreamRequest, hstr, hs]
          first
          | exact requestWritesOk_append _ _ _ (noSkipAux_pending_settle _ _)
          | exact requestWritesOk_append _ _ _ (noSkipAux_idle_pending_settle _ _)
  · cases hstr : st.isStreaming <;> cases hs : st.stream <;> cases host <;>
      simp [Hook.start, Hook.initiateStream, Hook.initiateStreamPre,
        Hook.initiateStreamPost, Hook.setGetStreamRequest, hstr, hs]
  · cases hstr : st.isStreaming <;> cases hs : st.stream <;>
      simp [Hook.stop, Hook.setGetStreamRequest, hstr, hs]
  · cases hs : st.stream with
    | some s =>
      cases enum <;>
        · simp [Hook.getMediaDevices, h, hs, Hook.setGetMediaDevicesRequest]
          exact requestWritesOk_append _ _ _ (noSkipAux_pending_settle _ _)
    | none =>
      cases gum <;> cases enum <;>
        · simp [Hook.getMediaDevices, h, hs, Hook.setGetMediaDevicesRequest,
            Hook.initiateStream, Hook.initiateStreamPre, Hook.initiateStreamPost,
            Hook.setGetStreamRequest]
          exact requestWritesOk_append _ _ _ (noSkipAux_pending_settle _ _)
  · cases r <;> cases hstr : st.isStreaming <;> cases hs : st.stream <;> cases host <;>
      simp [Hook.updateMediaDeviceConstraints, Hook.stop, Hook.initiateStream,
        Hook.initiateStreamPre, Hook.initiateStreamPost, Hook.setGetStreamRequest,
        hstr, hs]
  · cases hs : st.stream <;>
      simp [Hook.muteAudio, Hook.unmuteAudio, Hook.muteVideo, Hook.unmuteVideo,
        Hook.handleOnVideoOrAudioEndedEvent, hs]
  · rw [hookB_initiate_gsWrites]
    exact requestWritesOk_append _ _ _ (noSkipAux_pending_settle _ _)
  · cases hstr : st.isStreaming with
    | true =>
      simp only [HookB.start, hstr, if_true]
      exact requestWritesOk_nil _ _
    | false =>
      cases host <;>
        · simp [HookB.start, HookB.initiateStream, HookB.initiateStreamPre,
            HookB.initiateStreamPost, HookB.setGetStreamRequest, hstr]
          exact requestWritesOk_append _ _ _ (noSkipAux_pending_settle _ _)
  · cases hstr : st.isStreaming with
    | false =>
      simp only [HookB.stop, hstr, Bool.not_false, if_true]
      exact requestWritesOk_nil _ _
    | true =>
      simp [HookB.stop, hstr, HookB.setGetStreamRequest]
      exact requestWritesOk_append _ _ _ (noSkipAux_idle _)
  · cases hsup : st.isSupported <;> cases hs : st.stream <;> cases gum <;> cases enum <;>
      · simp [HookB.getMediaDevices, HookB.setGetMediaDevicesRequest,
          HookB.initiateStream, HookB.initiateStreamPre, HookB.initiateStreamPost,
          HookB.setGetStreamRequest, hsup, hs]
        first
        | exact requestWritesOk_nil _ _
        | exact requestWritesOk_append _ _ _ (noSkipAux_pending_settle _ _)
  · cases hsup : st.isSupported <;> cases hs : st.stream <;> cases gum <;> cases enum <;>
      · simp [HookB.getMediaDevices, HookB.setGetMediaDevicesRequest,
          HookB.initiateStream, HookB.initiateStreamPre, HookB.initiateStreamPost,
          HookB.setGetStreamRequest, hsup, hs]
        exact requestWritesOk_append _ _ _ (noSkipAux_pending_settle _ _)
  · cases r with
    | false =>
      simp only [HookB.updateMediaDeviceConstraints, Bool.false_eq_true, if_false]
      exact requestWritesOk_nil _ _
    | true =>
      cases hstr : st.isStreaming <;> cases hs : st.stream <;> cases host <;>
        · simp [HookB.updateMediaDeviceConstraints, HookB.stop,
            HookB.initiateStream, HookB.initiateStreamPre, HookB.initiateStreamPost,
            HookB.setGetStreamRequest, hstr, hs]
          first
          | exact requestWritesOk_append _ _ _ (noSkipAux_pending_settle _ _)
          | exact requestWritesOk_append _ _ _ (noSkipAux_idle_pending_settle _ _)
  · refine ⟨hookB_initiate_gmdWrites st cArg host, ?_, ?_, ?_⟩
    · cases hstr : st.isStreaming <;> cases host <;>
        simp [HookB.start, HookB.initiateStream, HookB.initiateStreamPre,
          HookB.initiateStreamPost, HookB.setGetStreamRequest, hstr]
    · cases hstr : st.isStreaming <;> cases hs : st.stream <;>
        simp [HookB.stop, HookB.setGetStreamRequest, hstr, hs]
    · cases r <;> cases hstr : st.isStreaming <;> cases hs : st.stream <;> cases host <;>
        simp [HookB.updateMediaDeviceConstraints, HookB.stop, HookB.initiateStream,
          HookB.initiateStreamPre, HookB.initiateStreamPost,
          HookB.setGetStreamRequest, hstr, hs]

/-- Witness for C1: the hypothesis-bearing conjunct (the primary
implementation's enumeration no-skip under a supported environment)
applied to a concrete state. -/
theorem C1_witness :
    RequestWritesOk idleState.getMediaDevicesRequest idleState.gmdWrites
      ((Hook.getMediaDevices idleState (GumResult.ok sampleStream)
          (EnumResult.ok [sampleDevice])).1).gmdWrites := by
  obtain ⟨-, -, -, -, -, -, -, -, hgmd, -⟩ := C1_no_skip_amended
  exact hgmd idleState (GumResult.ok sampleStream) (EnumResult.ok [sampleDevice]) rfl

theorem lookupKey_append_some (l1 l2 : List (String × JVal)) (k : String)
    (v : JVal) (h : lookupKey l1 k = some v) : lookupKey (l1 ++ l2) k = some v := by
  induction l1 with
  | nil => simp [lookupKey] at h
  | cons kv tl ih =>
    obtain ⟨k1, v1⟩ := kv
    by_cases hk : k1 = k
    · simp [lookupKey, hk] at h ⊢
      exact h
    · simp [lookupKey, hk] at h ⊢
      exact ih h

theorem lookupKey_append_none (l1 l2 : List (String × JVal)) (k : String)
    (h : lookupKey l1 k = none) : lookupKey (l1 ++ l2) k = lookupKey l2 k := by
  induction l1 with
  | nil => rfl
  | cons kv tl ih =>
    obtain ⟨k1, v1⟩ := kv
    by_cases hk : k1 = k
    · simp [lookupKey, hk] at h
    · simp [lookupKey, hk] at h ⊢
      exact ih h

theorem lookupKey_filter_pos (sfs l : List (String × JVal)) (k : String)
    (hp : containsKey sfs k = false) :
    lookupKey (l.filter fun kv => !(containsKey sfs kv.1)) k = lookupKey l k := by
  induction l with
  | nil => rfl
  | cons kv tl ih =>
    obtain ⟨k1, v1⟩ := kv
    by_cases hk : k1 = k
    · subst hk
      simp [List.filter_cons, hp, lookupKey]
    · by_cases h1 : containsKey sfs k1 = true
      · simp [List.filter_cons, h1, lookupKey, hk, ih]
      · simp only [Bool.not_eq_true] at h1
        simp [List.filter_cons, h1, lookupKey, hk, ih]

theorem lookupKey_filter_neg (sfs l : List (String × JVal)) (k : String)
    (hp : containsKey sfs k = true) :
    lookupKey (l.filter fun kv => !(containsKey sfs kv.1)) k = none := by
  induction l with
  | nil => rfl
  | cons kv tl ih =>
    obtain ⟨k1, v1⟩ := kv
    by_cases hk : k1 = k
    · subst hk
      simp [List.filter_cons, hp, ih]
    · by_cases h1 : containsKey sfs k1 = true
      · simp [List.filter_cons, h1, lookupKey, hk, ih]
      · simp only [Bool.not_eq_true] at h1
        simp [List.filter_cons, h1, lookupKey, hk, ih]

theorem lookupKey_overrideFields (tfs sfs : List (String × JVal)) (k : String) :
    lookupKey (overrideFields tfs sfs) k
      = (lookupKey sfs k).map fun sv =>
          if containsKey tfs k && isObjB sv
          then mergeJ ((lookupKey tfs k).getD JVal.null) sv
          else sv := by
  induction sfs with
  | nil => simp [overrideFields, lookupKey]
  | cons kv tl ih =>
    obtain ⟨k1, sv⟩ := kv
    by_cases hk : k1 = k
    · subst hk
      simp [overrideFields, lookupKey]
    · simp [overrideFields, lookupKey, hk, ih]

theorem mergeJ_obj (t : JVal) (sfs : List (String × JVal)) :
    mergeJ t (JVal.obj sfs)
      = JVal.obj ((jfields t).filter (fun kv => !(containsKey sfs kv.1))
          ++ overrideFields (jfields t) sfs) := by
  simp [mergeJ]

/-- Every leaf present in the override ends up at the same path in the
merged result, whatever the base holds there. -/
theorem mergeJ_override_leaf (p : List String) :
    ∀ (base O v : JVal), getPath O p = some v → isLeafB v = true →
      getPath (mergeJ base O) p = some v := by
  induction p with
  | nil =>
    intro base O v h hleaf
    have hOv : O = v := by simpa [getPath] using h
    subst hOv
    cases O with
    | obj fs => simp [isLeafB] at hleaf
    | null => simp [mergeJ, getPath]
    | bool b => simp [mergeJ, getPath]
    | num n => simp [mergeJ, getPath]
    | str s => simp [mergeJ, getPath]
  | cons k rest ih =>
    intro base O v h hleaf
    cases O with
    | null => simp [getPath] at h
    | bool b => simp [getPath] at h
    | num n => simp [getPath] at h
    | str s => simp [getPath] at h
    | obj sfs =>
      cases hl : lookupKey sfs k with
      | none => simp [getPath, hl] at h
      | some ov =>
        have hrest : getPath ov rest = some v := by
          simpa [getPath, hl] using h
        have hcontains : containsKey sfs k = true := by
          simp [containsKey, hl]
        have hkept : lookupKey ((jfields base).filter
            (fun kv => !(containsKey sfs kv.1))) k = none :=
          lookupKey_filter_neg _ _ _ hcontains
        have hover := lookupKey_overrideFields (jfields base) sfs k
        rw [hl] at hover
        have hlk : lookupKey ((jfields base).filter (fun kv => !(containsKey sfs kv.1))
            ++ overrideFields (jfields base) sfs) k
            = some (if containsKey (jfields base) k && isObjB ov
                then mergeJ ((lookupKey (jfields base) k).getD JVal.null) ov
                else ov) := by
          rw [lookupKey_append_none _ _ _ hkept, hover]
          rfl
        rw [mergeJ_obj]
        simp only [getPath, hlk]
        by_cases hc : (containsKey (jfields base) k && isObjB ov) = true
        · simp only [hc, if_true]
          exact ih _ ov v hrest hleaf
        · simp only [Bool.not_eq_true] at hc
          simp only [hc, Bool.false_eq_true, if_false]
          exact hrest

/-- Every path of the base that the override misses (walking the path
through the override meets only objects until a missing key) keeps its
base value in the merged result. -/
theorem mergeJ_preserve_missed (p : List String) :
    ∀ (base O v : JVal), missesPath O p = true → getPath base p = some v →
      getPath (mergeJ base O) p = some v := by
  induction p with
  | nil =>
    intro base O v hmiss h
    simp [missesPath] at hmiss
  | cons k rest ih =>
    intro base O v hmiss h
    cases O with
    | null => simp [missesPath] at hmiss
    | bool b => simp [missesPath] at hmiss
    | num n => simp [missesPath] at hmiss
    | str s => simp [missesPath] at hmiss
    | obj sfs =>
      cases base with
      | null => simp [getPath] at h
      | bool b => simp [getPath] at h
      | num n => simp [getPath] at h
      | str s => simp [getPath] at h
      | obj bfs =>
        cases hlb : lookupKey bfs k with
        | none => simp [getPath, hlb] at h
        | some bv =>
          have hrest : getPath bv rest = some v := by
            simpa [getPath, hlb] using h
          cases hls : lookupKey sfs k with
          | none =>
            have hncontains : containsKey sfs k = false := by
              simp [containsKey, hls]
            have hkept : lookupKey ((jfields (JVal.obj bfs)).filter
                (fun kv => !(containsKey sfs kv.1))) k = some bv := by
              rw [lookupKey_filter_pos _ _ _ hncontains]
              exact hlb
            rw [mergeJ_obj]
            simp only [getPath, lookupKey_append_some _ _ _ _ hkept]
            exact hrest
          | some w =>
            have hmr : missesPath w rest = true := by
              simpa [missesPath, hls] using hmiss
            have hcontains : containsKey sfs k = true := by
              simp [containsKey, hls]
            have hkept : lookupKey ((jfields (JVal.obj bfs)).filter
                (fun kv => !(containsKey sfs kv.1))) k = none :=
              lookupKey_filter_neg _ _ _ hcontains
            have hover := lookupKey_overrideFields (jfields (JVal.obj bfs)) sfs k
            rw [hls] at hover
            have hbcontains : containsKey (jfields (JVal.obj bfs)) k = true := by
              simp [jfields, containsKey, hlb]
            have hlk : lookupKey ((jfields (JVal.obj bfs)).filter
                (fun kv => !(containsKey sfs kv.1))
                ++ overrideFields (jfields (JVal.obj bfs)) sfs) k
                = some (if containsKey (jfields (JVal.obj bfs)) k && isObjB w
                    then mergeJ ((lookupKey (jfields (JVal.obj bfs)) k).getD JVal.null) w
                    else w) := by
              rw [lookupKey_append_none _ _ _ hkept, hover]
              rfl
            rw [mergeJ_obj]
            simp only [getPath, hlk]
            by_cases hw : isObjB w = true
            · simp only [hbcontains, hw, Bool.and_self, if_true]
              have hbv : (lookupKey (jfields (JVal.obj bfs)) k).getD JVal.null = bv := by
                simp [jfields, hlb]
              rw [hbv]
              exact ih bv w v hmr hrest
            · cases rest with
              | nil => simp [missesPath] at hmr
              | cons r rs =>
                cases w <;> simp_all [missesPath, isObjB]

/-- The base of the C4 counterexample: constraints with an audio
sub-object, as in the hook defaults. -/
def mergeBase0 : JVal :=
  JVal.obj [("audio", JVal.obj [("deviceId", JVal.str "")])]

/-- The override of the C4 counterexample: `audio` toggled to a plain
boolean, a legitimate `MediaStreamConstraints` override. -/
def mergeOver0 : JVal :=
  JVal.obj [("audio", JVal.bool false)]

/-- Counterexample to claim C4: the base holds a leaf at the path
audio.deviceId, the override holds no value at that path, yet the merge
does not preserve the leaf — the override's non-object `audio` value
replaces the whole `audio` sub-object, so nested fields are lost by
whole-object replacement. -/
theorem C4_counterexample :
    getPath mergeBase0 ["audio", "deviceId"] = some (JVal.str "") ∧
    isLeafB (JVal.str "") = true ∧
    getPath mergeOver0 ["audio", "deviceId"] = none ∧
    mergeJ mergeBase0 mergeOver0 = mergeOver0 ∧
    getPath (mergeJ mergeBase0 mergeOver0) ["audio", "deviceId"] = none := by
  have hm : mergeJ mergeBase0 mergeOver0 = mergeOver0 := by
    simp [mergeBase0, mergeOver0, mergeJ, overrideFields, jfields, containsKey,
      lookupKey, isObjB]
  exact ⟨rfl, rfl, rfl, hm, by rw [hm]; rfl⟩

/-- Claim C4 as amended: `merge(base, O)` behaves as claimed except
when O maps a proper prefix of the path to a non-object value, in which
case that value replaces the base's whole sub-object there (as in the
counterexample).  Precisely: every leaf present in O at a path appears
at that path in the result (covering both overriding a base leaf and
adding a field absent from base), and every leaf of base at a path that
O misses — walking the path through O meets only objects until one
lacks the next key — is preserved unchanged. -/
theorem C4_deep_merge_amended :
    (∀ (base O : JVal) (p : List String) (v : JVal),
        getPath O p = some v → isLeafB v = true →
          getPath (mergeJ base O) p = some v) ∧
    (∀ (base O : JVal) (p : List String) (v : JVal),
        missesPath O p = true → getPath base p = some v → isLeafB v = true →
          getPath (mergeJ base O) p = some v) :=
  ⟨fun base O p v h hleaf => mergeJ_override_leaf p base O v h hleaf,
   fun base O p v hmiss h _ => mergeJ_preserve_missed p base O v hmiss h⟩

/-- The override of the C4 witness, `video.width := 640`. -/
def mergeOver640 : JVal :=
  JVal.obj [("video", JVal.obj [("width", JVal.num 640)])]

/-- Witness for C4: merging `video.width := 640` into the default
constraints yields width 640 while preserving the untouched leaf
`video.height = 720`. -/
theorem C4_witness :
    getPath (mergeJ defaultMediaDeviceConstraints mergeOver640) ["video", "width"]
      = some (JVal.num 640) ∧
    getPath (mergeJ defaultMediaDeviceConstraints mergeOver640) ["video", "height"]
      = some (JVal.num 720) :=
  ⟨C4_deep_merge_amended.1 defaultMediaDeviceConstraints mergeOver640
      ["video", "width"] (JVal.num 640) rfl rfl,
   C4_deep_merge_amended.2 defaultMediaDeviceConstraints mergeOver640
      ["video", "height"] (JVal.num 720) rfl rfl rfl⟩
